import Mathlib

/-!
Verification development for the Panasonic Blu-ray protocol client
(`custom_components/panasonic_bd/api.py` and `const.py`).

The network layer is shallowly embedded: a request's outcome is a value of
`HttpOutcome` (transport error, timeout, or an HTTP response with a status
code and a body), and `_send_request`'s decode/parse pipeline is the pure
function `sendRequestModel`.  The higher operations
(`async_test_connection`, `async_send_command`, `async_get_play_status`)
are pure functions of the replies the device would give, and additionally
return the list of request bodies they issue, so that claims about which
probes are sent can be stated.  Python exceptions are modelled with
`Except`: `int(...)` is `pyIntE`, and each `try/except` block of the source
is translated with its handler, threading the locals assigned before a
swallowed exception exactly as CPython does.

Python string primitives (`strip`, `split`, `startswith`, `upper`,
`int(...)` parsing) are implemented structurally over `List Char` so that
every definition evaluates inside the kernel.
-/

/-- Python `str.isspace` characters relevant to `str.strip()` (ASCII
whitespace; the replies are ASCII). -/
def isPySpace (c : Char) : Bool :=
  c = ' ' || c = '\t' || c = '\n' || c = '\r' || c = '\x0b' || c = '\x0c'

/-- Python `s.strip()` on a character list: drop whitespace from both
ends. -/
def trimL (l : List Char) : List Char :=
  ((l.dropWhile isPySpace).reverse.dropWhile isPySpace).reverse

/-- Whether the first list is a prefix of the second (Python
`startswith`). -/
def isPrefixL : List Char → List Char → Bool
  | [], _ => true
  | _ :: _, [] => false
  | a :: as, b :: bs => a = b && isPrefixL as bs

/-- Python `s.split(sep)` for a one-character separator: every occurrence
splits, empty pieces are kept, and the empty string yields `[[]]`. -/
def splitOnChar (sep : Char) : List Char → List (List Char)
  | [] => [[]]
  | c :: rest =>
    if c = sep then [] :: splitOnChar sep rest
    else
      match splitOnChar sep rest with
      | [] => [[c]]
      | g :: gs => (c :: g) :: gs

/-- Python `s.split("\r\n")`: split on each non-overlapping occurrence of
CRLF, scanning left to right. -/
def splitCRLF : List Char → List (List Char)
  | [] => [[]]
  | [c] => [[c]]
  | c1 :: c2 :: rest =>
    if c1 = '\r' && c2 = '\n' then [] :: splitCRLF rest
    else
      match splitCRLF (c2 :: rest) with
      | [] => [[c1]]
      | g :: gs => (c1 :: g) :: gs

/-- Python `s.upper()` restricted to ASCII letters (every command token in
the source is ASCII). -/
def pyUpper (s : String) : String :=
  String.mk (s.toList.map Char.toUpper)

/-- Model of Python `int(s)` restricted to ASCII decimal literals: strip
surrounding whitespace, allow one leading `+` or `-`, then require a
nonempty run of ASCII digits; anything else raises `ValueError`
(modelled as `none`). -/
def pyInt (s : String) : Option Int :=
  let t := trimL s.toList
  let neg := isPrefixL ['-'] t
  let core := if neg || isPrefixL ['+'] t then t.drop 1 else t
  if !core.isEmpty && core.all Char.isDigit then
    some ((if neg then -1 else 1) *
      (core.foldl (fun a c => 10 * a + (c.toNat - 48)) 0 : Nat))
  else
    none

/-- The status tag returned by `_send_request`: `"ok"`, `"off"` or `"error"`
in the source. -/
inductive ReqStatus
  | ok
  | off
  | error
deriving DecidableEq, Repr

/-- A decoded reply: the status tag plus the optional comma-split fields of
the reply's second line (the `(status, response_lines)` pair of
`_send_request`). -/
structure RawReply where
  status : ReqStatus
  data : Option (List String)
deriving DecidableEq, Repr

/-- Python truthiness test `not data` for an `Optional[list]`: true when the
value is `None` or the empty list. -/
def pyFalsy (d : Option (List String)) : Bool :=
  match d with
  | none => true
  | some [] => true
  | some (_ :: _) => false

/-- The reply-text parser of `_send_request` (api.py lines 177-194): strip
the text, split on CRLF, comma-split the first line; a first field whose
strip starts with `"FE"` or differs from `"00"` is an error; otherwise
success, with the comma-split second line as data when present. -/
def parseResponseText (text : String) : ReqStatus × Option (List String) :=
  let lines := splitCRLF (trimL text.toList)
  let first_line := splitOnChar ',' (lines.headD [])
  let f0 := trimL (first_line.headD [])
  if isPrefixL ['F', 'E'] f0 then (ReqStatus.error, none)
  else if f0 ≠ ['0', '0'] then (ReqStatus.error, none)
  else
    match lines with
    | _ :: l2 :: _ => (ReqStatus.ok, some ((splitOnChar ',' l2).map String.mk))
    | _ => (ReqStatus.ok, none)

/-- Model of the `PlayerType` enumeration from const.py (`AUTO`, `BD`, `UHD`). -/
inductive PlayerType
  | AUTO
  | BD
  | UHD
deriving DecidableEq, Repr

namespace PlayerStatus

/-- Value of `PlayerStatus.POWER_OFF` from const.py. -/
def POWER_OFF : String := "Power Off"

/-- Value of `PlayerStatus.TRAY_OPEN` from const.py. -/
def TRAY_OPEN : String := "Tray Open"

/-- Value of `PlayerStatus.STOPPED` from const.py. -/
def STOPPED : String := "Stopped"

/-- Value of `PlayerStatus.PLAYBACK` from const.py. -/
def PLAYBACK : String := "Playback"

/-- Value of `PlayerStatus.PAUSE_PLAYBACK` from const.py. -/
def PAUSE_PLAYBACK : String := "Pause Playback"

/-- Value of `PlayerStatus.UNKNOWN` from const.py. -/
def UNKNOWN : String := "Unknown"

end PlayerStatus

/-- Model of the `PlayStatus` dataclass from api.py. -/
structure PlayStatus where
  state : String
  status_string : String
  position : Int
  duration : Int
  chapter_current : Option Int
  chapter_total : Option Int
deriving DecidableEq, Repr

/-- Model of the `CommandResult` dataclass from api.py. -/
structure CommandResult where
  success : Bool
  error : Option String := none
deriving DecidableEq, Repr

/-- Request body of the basic (universal) probe `cCMD_PST`. -/
def PST_REQUEST : String := "cCMD_PST.x=100&cCMD_PST.y=100"

/-- Request body of the extended probe `cCMD_GET_STATUS`. -/
def GET_STATUS_REQUEST : String := "cCMD_GET_STATUS.x=100&cCMD_GET_STATUS.y=100"

/-- Request body built by `async_send_command` for an allowed token. -/
def rcRequest (cmd : String) : String :=
  "cCMD_RC_" ++ cmd ++ ".x=100&cCMD_RC_" ++ cmd ++ ".y=100"

/-- Contents of `BD_COMMANDS` from const.py. -/
def BD_COMMANDS : List String :=
  ["POWER", "POWERON", "POWEROFF",
   "OP_CL",
   "PLAYBACK", "PAUSE", "STOP", "CUE", "REV", "SKIPFWD", "SKIPREV",
   "SHFWD1", "SHFWD2", "SHFWD3", "SHFWD4", "SHFWD5",
   "SHREV1", "SHREV2", "SHREV3", "SHREV4", "SHREV5",
   "JLEFT", "JRIGHT",
   "UP", "DOWN", "LEFT", "RIGHT", "SELECT", "RETURN", "EXIT",
   "MLTNAVI", "DSPSEL", "TITLE", "MENU", "PUPMENU", "SETUP",
   "D0", "D1", "D2", "D3", "D4", "D5", "D6", "D7", "D8", "D9", "D12",
   "SHARP", "CLEAR",
   "RED", "GREEN", "BLUE", "YELLOW",
   "NETFLIX", "SKYPE", "V_CAST", "NETWORK",
   "AUDIOSEL", "3D", "OSDONOFF", "P_IN_P", "PIP",
   "PICTMD", "2NDARY", "CHROMA", "KEYS", "DETAIL", "RESOLUTN"]

/-- Contents of `UHD_COMMANDS` from const.py. -/
def UHD_COMMANDS : List String :=
  ["MNSKIP", "MNBACK",
   "TITLEONOFF", "CLOSED_CAPTION",
   "HDR_PICTUREMODE", "PICTURESETTINGS",
   "SOUNDEFFECT", "HIGHCLARITY",
   "PLAYBACKINFO", "MIRACAST", "SKIP_THE_TRAILER"]

/-- Contents of `COMMANDS = BD_COMMANDS | UHD_COMMANDS` from const.py (the source only
uses membership, so the set is modelled as a list). -/
def COMMANDS : List String := BD_COMMANDS ++ UHD_COMMANDS

/-- Model of `async_send_command` (api.py lines 255-294), as a function of the
client's current player type, the requested command string, and the reply
the device would give to the single `RC_` request.  Returns the
`CommandResult`, the player type after the call (the side inference on
`self._player_type`), and the list of request bodies issued. -/
def async_send_command (player_type : PlayerType) (command : String)
    (reply : RawReply) : CommandResult × PlayerType × List String :=
  let cmd := pyUpper command
  if cmd ∉ COMMANDS then
    ({ success := false, error := some ("Unknown command: " ++ cmd) },
     player_type, [])
  else
    let data := rcRequest cmd
    match reply.status with
    | ReqStatus.error =>
        let pt := if player_type = PlayerType.AUTO then PlayerType.UHD else player_type
        ({ success := false, error := some "Command failed" }, pt, [data])
    | ReqStatus.off =>
        ({ success := false, error := some "Device is off or unreachable" },
         player_type, [data])
    | ReqStatus.ok =>
        let pt := if player_type = PlayerType.AUTO then PlayerType.BD else player_type
        ({ success := true, error := none }, pt, [data])

/-- Model of `async_test_connection` (api.py lines 203-215): issues one
`cCMD_GET_STATUS` request; a raised `CannotConnect` (the `Except.error`
case of the request outcome) yields `false`, otherwise the result is
`status != "error"`.  Also returns the request body issued. -/
def async_test_connection (r : Except String (ReqStatus × Option (List String))) :
    Bool × List String :=
  match r with
  | Except.error _ => (false, [GET_STATUS_REQUEST])
  | Except.ok (status, _) => (decide (status ≠ ReqStatus.error), [GET_STATUS_REQUEST])

/-- Python exceptions that the status parsers raise and catch. -/
inductive PyExc
  | valueError
  | indexError
deriving DecidableEq, Repr

/-- Python `int(s)` in the exception monad: `ValueError` when unparsable. -/
def pyIntE (s : String) : Except PyExc Int :=
  match pyInt s with
  | some n => Except.ok n
  | none => Except.error PyExc.valueError

/-- The `try` body of the basic-status parse (api.py lines 332-337):
`pst_state = int(data[0]) if len(data) > 0 else 0` then
`position = int(data[1]) if len(data) > 1 else 0`; a `ValueError` escapes
to the handler. -/
def parsePstE (d : List String) : Except PyExc (Int × Int) :=
  match (if d.length > 0 then pyIntE (d.headD "") else Except.ok 0) with
  | Except.error e => Except.error e
  | Except.ok pst_state =>
    match (if d.length > 1 then pyIntE (d.getD 1 "") else Except.ok 0) with
    | Except.error e => Except.error e
    | Except.ok position => Except.ok (pst_state, position)

/-- The basic-status parse with its `except (ValueError, IndexError)`
handler, which resets both `pst_state` and `position` to 0. -/
def parsePst (d : List String) : Int × Int :=
  match parsePstE d with
  | Except.ok v => v
  | Except.error _ => (0, 0)

/-- The clamp `if position < 0: position = 0` (api.py lines 340-341). -/
def clampPos (p : Int) : Int := if p < 0 then 0 else p

/-- The local variables `duration`, `chapter_current`, `chapter_total`
initialised before the extended probe (api.py lines 344-346) and mutated
inside the extended `try` block. -/
structure ExtLocals where
  duration : Int := 0
  chapter_current : Option Int := none
  chapter_total : Option Int := none
deriving DecidableEq, Repr

/-- The extended-status `try` body (api.py lines 354-366): parse
`ext_data[0]` as `ext_state`, `ext_data[4]` as `duration`, and
`ext_data[5]`/`ext_data[6]` as chapters when present. `Except.error L`
means the block raised with locals `L` assigned so far (the
`except ... pass` handler keeps those values); `Except.ok (ext_state, L)`
means it ran to completion. -/
def extTryE (ext_data : List String) : Except ExtLocals (Int × ExtLocals) :=
  let L0 : ExtLocals := {}
  match (if ext_data.length > 0 then pyIntE (ext_data.headD "") else Except.ok 0) with
  | Except.error _ => Except.error L0
  | Except.ok ext_state =>
    match (if ext_data.length > 4 then pyIntE (ext_data.getD 4 "") else Except.ok 0) with
    | Except.error _ => Except.error L0
    | Except.ok dur =>
      let L1 : ExtLocals := { L0 with duration := dur }
      if ext_data.length > 5 then
        match pyIntE (ext_data.getD 5 "") with
        | Except.error _ => Except.error L1
        | Except.ok cc =>
          let L2 : ExtLocals := { L1 with chapter_current := some cc }
          if ext_data.length > 6 then
            match pyIntE (ext_data.getD 6 "") with
            | Except.error _ => Except.error L2
            | Except.ok ct => Except.ok (ext_state, { L2 with chapter_total := some ct })
          else Except.ok (ext_state, L2)
      else Except.ok (ext_state, L1)

/-- The final mapping of the basic play-state code to a snapshot
(api.py lines 382-403): 0 is stopped, 1 playing, 2 paused, anything else
unknown. -/
def mapPstSnapshot (pst_state position : Int) (L : ExtLocals) : PlayStatus :=
  if pst_state = 0 then
    { state := "stopped", status_string := PlayerStatus.STOPPED,
      position := position, duration := L.duration,
      chapter_current := L.chapter_current, chapter_total := L.chapter_total }
  else if pst_state = 1 then
    { state := "playing", status_string := PlayerStatus.PLAYBACK,
      position := position, duration := L.duration,
      chapter_current := L.chapter_current, chapter_total := L.chapter_total }
  else if pst_state = 2 then
    { state := "paused", status_string := PlayerStatus.PAUSE_PLAYBACK,
      position := position, duration := L.duration,
      chapter_current := L.chapter_current, chapter_total := L.chapter_total }
  else
    { state := "unknown", status_string := PlayerStatus.UNKNOWN,
      position := position, duration := L.duration,
      chapter_current := L.chapter_current, chapter_total := L.chapter_total }

/-- Model of `async_get_play_status` (api.py lines 296-403), as a function of the
client's player type and of the replies the device would give to the basic
(`cCMD_PST`) and extended (`cCMD_GET_STATUS`) probes.  The extended reply
is consulted only when that probe is actually issued.  Returns the
snapshot together with the list of request bodies issued. -/
def async_get_play_status (player_type : PlayerType) (basic ext : RawReply) :
    PlayStatus × List String :=
  if basic.status = ReqStatus.off then
    ({ state := "off", status_string := PlayerStatus.POWER_OFF,
       position := 0, duration := 0,
       chapter_current := none, chapter_total := none }, [PST_REQUEST])
  else if basic.status = ReqStatus.error || pyFalsy basic.data then
    ({ state := "unknown", status_string := PlayerStatus.UNKNOWN,
       position := 0, duration := 0,
       chapter_current := none, chapter_total := none }, [PST_REQUEST])
  else
    let data := basic.data.getD []
    let pst_state := (parsePst data).1
    let position := clampPos (parsePst data).2
    if player_type ≠ PlayerType.UHD then
      let requests := [PST_REQUEST, GET_STATUS_REQUEST]
      if ext.status = ReqStatus.ok && !pyFalsy ext.data then
        match extTryE (ext.data.getD []) with
        | Except.ok (ext_state, L) =>
          if ext_state = 0 ∧ pst_state = 0 then
            ({ state := "standby", status_string := PlayerStatus.POWER_OFF,
               position := position, duration := L.duration,
               chapter_current := L.chapter_current,
               chapter_total := L.chapter_total }, requests)
          else
            (mapPstSnapshot pst_state position L, requests)
        | Except.error L => (mapPstSnapshot pst_state position L, requests)
      else
        (mapPstSnapshot pst_state position {}, requests)
    else
      (mapPstSnapshot pst_state position {}, [PST_REQUEST])

/-- A reply body as `_send_request` sees it after the gzip stage:
either the bytes carried the gzip magic prefix but failed to decompress
(decompression itself is outside the model), or a byte string remains to
be decoded as text (the raw bytes, or the decompressed bytes when the
gzip path succeeded). -/
inductive RespBody
  | gzipCorrupt
  | plain (bytes : List (Fin 256))
deriving DecidableEq, Repr

/-- The outcome of the HTTP POST inside `_send_request`:
`aiohttp.ClientError`, `asyncio.TimeoutError`, or a response with an HTTP
status code and a body. -/
inductive HttpOutcome
  | clientError
  | timeoutErr
  | resp (status : Nat) (body : RespBody)
deriving DecidableEq, Repr

/-- Latin-1 decoding (`bytes.decode("latin-1")`): total, each byte is the
code point itself. -/
def latin1Decode (bs : List (Fin 256)) : String :=
  String.mk (bs.map fun b => Char.ofNat b.val)

/-- Whether a byte is a UTF-8 continuation byte (`10xxxxxx`). -/
def isContByte (b : Fin 256) : Bool := 128 ≤ b.val && b.val < 192

/-- Fuel-driven UTF-8 decoder core (`bytes.decode("utf-8")`): rejects
stray continuation bytes, truncated sequences, overlong encodings,
surrogate code points and code points above `0x10FFFF`.  The fuel is the
length of the byte string, so it never runs out. -/
def utf8DecodeAux : Nat → List (Fin 256) → Option (List Char)
  | _, [] => some []
  | 0, _ :: _ => none
  | fuel + 1, b :: rest =>
    let n := b.val
    if n < 128 then
      (utf8DecodeAux fuel rest).map fun cs => Char.ofNat n :: cs
    else if n < 192 then none
    else if n < 224 then
      match rest with
      | b2 :: r =>
        if isContByte b2 then
          let cp := (n - 192) * 64 + (b2.val - 128)
          if 128 ≤ cp then
            (utf8DecodeAux fuel r).map fun cs => Char.ofNat cp :: cs
          else none
        else none
      | [] => none
    else if n < 240 then
      match rest with
      | b2 :: b3 :: r =>
        if isContByte b2 && isContByte b3 then
          let cp := (n - 224) * 4096 + (b2.val - 128) * 64 + (b3.val - 128)
          if 2048 ≤ cp && !(55296 ≤ cp && cp ≤ 57343) then
            (utf8DecodeAux fuel r).map fun cs => Char.ofNat cp :: cs
          else none
        else none
      | _ => none
    else if n < 248 then
      match rest with
      | b2 :: b3 :: b4 :: r =>
        if isContByte b2 && isContByte b3 && isContByte b4 then
          let cp := (n - 240) * 262144 + (b2.val - 128) * 4096 +
            (b3.val - 128) * 64 + (b4.val - 128)
          if 65536 ≤ cp && cp ≤ 1114111 then
            (utf8DecodeAux fuel r).map fun cs => Char.ofNat cp :: cs
          else none
        else none
      | _ => none
    else none

/-- UTF-8 decoding of a byte string; `none` models `UnicodeDecodeError`. -/
def utf8Decode (bs : List (Fin 256)) : Option (List Char) :=
  utf8DecodeAux bs.length bs

/-- The text-decoding step of `_send_request` (api.py lines 170-175):
decode as UTF-8, falling back to Latin-1 on `UnicodeDecodeError`; always
yields a string. -/
def decodeText (bs : List (Fin 256)) : String :=
  match utf8Decode bs with
  | some cs => String.mk cs
  | none => latin1Decode bs

/-- Model of `_send_request` (api.py lines 121-201) over an `HttpOutcome`:
`Except.error msg` models a raised `CannotConnect`; transport errors and
timeouts are caught and normalised to the `"off"` tag; a gzip-decompression
failure yields the `"error"` tag; otherwise the decoded text is parsed by
`parseResponseText`. -/
def sendRequestModel (o : HttpOutcome) : Except String (ReqStatus × Option (List String)) :=
  match o with
  | HttpOutcome.clientError => Except.ok (ReqStatus.off, none)
  | HttpOutcome.timeoutErr => Except.ok (ReqStatus.off, none)
  | HttpOutcome.resp status body =>
    if status = 404 then
      Except.error "Device returned 404. Ensure player is on same subnet and Remote Device Operation is enabled."
    else if status ≠ 200 then
      Except.error "Unexpected status code"
    else
      match body with
      | RespBody.gzipCorrupt => Except.ok (ReqStatus.error, none)
      | RespBody.plain bs => Except.ok (parseResponseText (decodeText bs))

/-- Player-type component of one `async_send_command` call: the value of
`self._player_type` after executing the command with the given reply. -/
def sendCommandType (pt : PlayerType) (step : String × RawReply) : PlayerType :=
  (async_send_command pt step.1 step.2).2.1

/-- Helper: the clamp never yields a negative position. -/
theorem clampPos_nonneg (p : Int) : 0 ≤ clampPos p := by
  unfold clampPos; split <;> omega

/-- Helper: the final state mapping carries its position argument through
unchanged. -/
theorem mapPstSnapshot_position (a p : Int) (L : ExtLocals) :
    (mapPstSnapshot a p L).position = p := by
  unfold mapPstSnapshot; split_ifs <;> rfl

/-- Helper: closed form of the final state mapping. -/
theorem mapPstSnapshot_eq (a p : Int) (L : ExtLocals) :
    mapPstSnapshot a p L =
      { state := if a = 0 then "stopped" else if a = 1 then "playing"
                 else if a = 2 then "paused" else "unknown",
        status_string := if a = 0 then PlayerStatus.STOPPED
                 else if a = 1 then PlayerStatus.PLAYBACK
                 else if a = 2 then PlayerStatus.PAUSE_PLAYBACK
                 else PlayerStatus.UNKNOWN,
        position := p, duration := L.duration,
        chapter_current := L.chapter_current,
        chapter_total := L.chapter_total } := by
  unfold mapPstSnapshot; split_ifs <;> rfl

/-- C2: when the basic probe is transport-unreachable, the fetch returns
immediately a powered-off snapshot (state `"off"`, the power-off label,
position 0, duration 0, no chapters); the request list is the single
`cCMD_PST` body, so the extended probe is never issued. -/
theorem C2_powered_off_short_circuit (pt : PlayerType)
    (dat : Option (List String)) (ext : RawReply) :
    async_get_play_status pt ⟨ReqStatus.off, dat⟩ ext =
      ({ state := "off", status_string := PlayerStatus.POWER_OFF, position := 0,
         duration := 0, chapter_current := none, chapter_total := none },
       [PST_REQUEST]) ∧
    [PST_REQUEST].length = 1 ∧ GET_STATUS_REQUEST ∉ [PST_REQUEST] :=
  ⟨rfl, rfl, by decide⟩

/-- C7 counterexample: `async_test_connection` does not issue the universal
(basic) probe: the one request it issues is the extended `cCMD_GET_STATUS`
body, which differs from the universal `cCMD_PST` body. -/
theorem C7_counterexample :
    (async_test_connection (Except.ok (ReqStatus.ok, none))).2 =
      [GET_STATUS_REQUEST] ∧ GET_STATUS_REQUEST ≠ PST_REQUEST :=
  ⟨rfl, by decide⟩

/-- C7 (amended): `async_test_connection` issues exactly one request, the
extended `cCMD_GET_STATUS` probe, and returns true unless the decoded
status is the error tag: transport-level `"off"` yields true, `"ok"` yields
true, `"error"` yields false, and a raised `CannotConnect` yields false. -/
theorem C7_test_connection_truth_table :
    (∀ r, (async_test_connection r).2 = [GET_STATUS_REQUEST]) ∧
    (∀ d, (async_test_connection (Except.ok (ReqStatus.off, d))).1 = true) ∧
    (∀ d, (async_test_connection (Except.ok (ReqStatus.ok, d))).1 = true) ∧
    (∀ d, (async_test_connection (Except.ok (ReqStatus.error, d))).1 = false) ∧
    (∀ m, (async_test_connection (Except.error m)).1 = false) := by
  refine ⟨fun r => ?_, fun d => rfl, fun d => rfl, fun d => rfl, fun m => rfl⟩
  match r with
  | Except.error _ => rfl
  | Except.ok (s, d) => rfl

/-- C5: `async_send_command` uppercases its input and checks it against the
fixed command set: an unrecognized name returns a failure with a
descriptive message and issues no request, while a recognized name issues
exactly the single `cCMD_RC_<TOKEN>` request built from the uppercased
token. -/
theorem C5_send_command_gate (pt : PlayerType) (command : String)
    (reply : RawReply) :
    (pyUpper command ∉ COMMANDS →
       async_send_command pt command reply =
         ({ success := false,
            error := some ("Unknown command: " ++ pyUpper command) }, pt, [])) ∧
    (pyUpper command ∈ COMMANDS →
       (async_send_command pt command reply).2.2 = [rcRequest (pyUpper command)]) := by
  constructor
  · intro h
    simp only [async_send_command]
    rw [if_pos h]
  · intro h
    simp only [async_send_command]
    rw [if_neg (by simpa using h)]
    rcases reply with ⟨st, dt⟩
    cases st <;> rfl

/-- Witness for C5 at the spec's own inputs. -/
theorem C5_witness :
    async_send_command PlayerType.AUTO "NOT_A_REAL_COMMAND" ⟨ReqStatus.ok, none⟩ =
      ({ success := false,
         error := some ("Unknown command: " ++ pyUpper "NOT_A_REAL_COMMAND") },
       PlayerType.AUTO, []) ∧
    (async_send_command PlayerType.BD "playback" ⟨ReqStatus.ok, none⟩).2.2 =
      [rcRequest (pyUpper "playback")] :=
  ⟨(C5_send_command_gate PlayerType.AUTO "NOT_A_REAL_COMMAND" ⟨ReqStatus.ok, none⟩).1
      (by decide),
   (C5_send_command_gate PlayerType.BD "playback" ⟨ReqStatus.ok, none⟩).2
      (by decide)⟩

/-- Helper: one `async_send_command` call never changes a player type that
is already decided (not `AUTO`). -/
theorem sendCommandType_fixed (pt : PlayerType) (h : pt ≠ PlayerType.AUTO)
    (step : String × RawReply) : sendCommandType pt step = pt := by
  rcases step with ⟨cmd, reply⟩
  unfold sendCommandType async_send_command
  dsimp only
  split
  · rfl
  · rcases reply with ⟨st, dt⟩
    cases st <;> simp [h]

/-- C9: generation inference only moves away from `AUTO`: any sequence of
command calls leaves a decided player type unchanged, and from `AUTO` a
recognized command's success infers `BD`, its application error infers
`UHD`, and an unreachable outcome or an unrecognized command leaves `AUTO`
unchanged. -/
theorem C9_generation_inference :
    (∀ (steps : List (String × RawReply)) (pt : PlayerType),
       pt ≠ PlayerType.AUTO → steps.foldl sendCommandType pt = pt) ∧
    (∀ cmd reply, pyUpper cmd ∈ COMMANDS → reply.status = ReqStatus.ok →
       sendCommandType PlayerType.AUTO (cmd, reply) = PlayerType.BD) ∧
    (∀ cmd reply, pyUpper cmd ∈ COMMANDS → reply.status = ReqStatus.error →
       sendCommandType PlayerType.AUTO (cmd, reply) = PlayerType.UHD) ∧
    (∀ cmd reply, pyUpper cmd ∉ COMMANDS ∨ reply.status = ReqStatus.off →
       sendCommandType PlayerType.AUTO (cmd, reply) = PlayerType.AUTO) := by
  refine ⟨?_, ?_, ?_, ?_⟩
  · intro steps
    induction steps with
    | nil => intro pt h; rfl
    | cons s ss ih =>
        intro pt h
        rw [List.foldl_cons, sendCommandType_fixed pt h s]
        exact ih pt h
  · intro cmd reply hm hs
    rcases reply with ⟨st, dt⟩
    cases hs
    unfold sendCommandType async_send_command
    dsimp only
    rw [if_neg (by simpa using hm)]
    rfl
  · intro cmd reply hm hs
    rcases reply with ⟨st, dt⟩
    cases hs
    unfold sendCommandType async_send_command
    dsimp only
    rw [if_neg (by simpa using hm)]
    rfl
  · intro cmd reply h
    rcases h with h | h
    · unfold sendCommandType async_send_command
      dsimp only
      rw [if_pos h]
    · rcases reply with ⟨st, dt⟩
      cases h
      unfold sendCommandType async_send_command
      dsimp only
      split
      · rfl
      · rfl

/-- Witness for C9 at concrete inputs. -/
theorem C9_witness :
    [("POWER", (⟨ReqStatus.ok, none⟩ : RawReply))].foldl sendCommandType
        PlayerType.BD = PlayerType.BD ∧
    sendCommandType PlayerType.AUTO ("power", ⟨ReqStatus.ok, none⟩) =
      PlayerType.BD ∧
    sendCommandType PlayerType.AUTO ("power", ⟨ReqStatus.error, none⟩) =
      PlayerType.UHD ∧
    sendCommandType PlayerType.AUTO ("NOT_A_REAL_COMMAND", ⟨ReqStatus.ok, none⟩) =
      PlayerType.AUTO :=
  ⟨C9_generation_inference.1 _ PlayerType.BD (by decide),
   C9_generation_inference.2.1 "power" ⟨ReqStatus.ok, none⟩ (by decide) rfl,
   C9_generation_inference.2.2.1 "power" ⟨ReqStatus.error, none⟩ (by decide) rfl,
   C9_generation_inference.2.2.2 "NOT_A_REAL_COMMAND" ⟨ReqStatus.ok, none⟩
     (Or.inl (by decide))⟩

/-- C4: the reply parser splits the (stripped) text on CRLF; a first
comma-split field of line 1 that (after strip) begins with `"FE"` or
differs from `"00"` yields the error tag with no fields; otherwise it
yields success, with line 2's comma-split fields when a second line is
present and no fields when it is absent; the spec's two sample replies
parse as stated. -/
theorem C4_reply_parse :
    (∀ text : String,
      (isPrefixL ['F', 'E']
          (trimL ((splitOnChar ','
            ((splitCRLF (trimL text.toList)).headD [])).headD [])) = true ∨
        trimL ((splitOnChar ','
          ((splitCRLF (trimL text.toList)).headD [])).headD []) ≠ ['0', '0'] →
          parseResponseText text = (ReqStatus.error, none)) ∧
      (trimL ((splitOnChar ','
          ((splitCRLF (trimL text.toList)).headD [])).headD []) = ['0', '0'] →
          parseResponseText text =
            (ReqStatus.ok,
             match splitCRLF (trimL text.toList) with
             | _ :: l2 :: _ => some ((splitOnChar ',' l2).map String.mk)
             | _ => none))) ∧
    parseResponseText "00,\"OK\",1\r\n0,100,200" =
      (ReqStatus.ok, some ["0", "100", "200"]) ∧
    parseResponseText "FE,\"Error\",0" = (ReqStatus.error, none) := by
  refine ⟨fun text => ⟨?_, ?_⟩, by decide, by decide⟩
  · intro h
    simp only [parseResponseText]
    split_ifs with h1 h2
    · rfl
    · rfl
    · rcases h with h | h
      · exact absurd h h1
      · exact absurd h h2
  · intro h
    simp only [parseResponseText]
    split_ifs with h1 h2
    · rw [h] at h1; exact absurd h1 (by decide)
    · exact absurd h h2
    · cases hs : splitCRLF (trimL text.toList) with
      | nil => rfl
      | cons l1 ls => cases ls <;> rfl

/-- Witness for C4 at the spec's sample replies. -/
theorem C4_witness :
    parseResponseText "FE,\"Error\",0" = (ReqStatus.error, none) ∧
    parseResponseText "00,\"OK\",1\r\n0,100,200" =
      (ReqStatus.ok,
       match splitCRLF (trimL ("00,\"OK\",1\r\n0,100,200" : String).toList) with
       | _ :: l2 :: _ => some ((splitOnChar ',' l2).map String.mk)
       | _ => none) :=
  ⟨(C4_reply_parse.1 "FE,\"Error\",0").1 (Or.inl (by decide)),
   (C4_reply_parse.1 "00,\"OK\",1\r\n0,100,200").2 (by decide)⟩

/-- Helper: when both of the first two basic fields parse, `parsePst`
returns them. -/
theorem parsePst_eq_of_parse (s0 s1 : String) (rest : List String) (a b : Int)
    (h0 : pyInt s0 = some a) (h1 : pyInt s1 = some b) :
    parsePst (s0 :: s1 :: rest) = (a, b) := by
  simp [parsePst, parsePstE, pyIntE, h0, h1]

/-- Helper: when either of the first two basic fields fails to parse, the
handler resets both the state code and the position to 0. -/
theorem parsePst_default_of_fail (s0 s1 : String) (rest : List String)
    (h : pyInt s0 = none ∨ pyInt s1 = none) :
    parsePst (s0 :: s1 :: rest) = (0, 0) := by
  rcases h with h | h
  · simp [parsePst, parsePstE, pyIntE, h]
  · cases h0 : pyInt s0 with
    | none => simp [parsePst, parsePstE, pyIntE, h0]
    | some a => simp [parsePst, parsePstE, pyIntE, h0, h]

/-- C3 counterexample: with generation `UHD` and basic fields
`["x", "5"]`, field 0 is unparsable, yet the fetch classifies the state as
`"stopped"`, not `"unknown"` as the claim states (the `except` handler of
the source resets the state code to 0). -/
theorem C3_counterexample :
    pyInt "x" = none ∧
    (async_get_play_status PlayerType.UHD ⟨ReqStatus.ok, some ["x", "5"]⟩
      ⟨ReqStatus.off, none⟩).1.state = "stopped" := by
  constructor
  · decide
  · decide

/-- C3 (amended): on a successful basic reply with at least two fields and
generation `UHD`, when both fields parse the state code maps 0 to stopped,
1 to playing, 2 to paused and anything else to unknown, with the position
clamped at 0 and duration 0; when either field is unparsable, both reset
to 0, yielding `"stopped"` with position 0 (not `"unknown"`); only the one
basic request is issued; and the spec's `["0", "-2"]` example returns
stopped with position clamped to 0. -/
theorem C3_basic_state_mapping :
    (∀ (ext : RawReply) (s0 s1 : String) (rest : List String),
      (∀ a b : Int, pyInt s0 = some a → pyInt s1 = some b →
        async_get_play_status PlayerType.UHD
            ⟨ReqStatus.ok, some (s0 :: s1 :: rest)⟩ ext =
          ({ state := if a = 0 then "stopped" else if a = 1 then "playing"
                      else if a = 2 then "paused" else "unknown",
             status_string := if a = 0 then PlayerStatus.STOPPED
                      else if a = 1 then PlayerStatus.PLAYBACK
                      else if a = 2 then PlayerStatus.PAUSE_PLAYBACK
                      else PlayerStatus.UNKNOWN,
             position := if b < 0 then 0 else b, duration := 0,
             chapter_current := none, chapter_total := none },
           [PST_REQUEST])) ∧
      ((pyInt s0 = none ∨ pyInt s1 = none) →
        async_get_play_status PlayerType.UHD
            ⟨ReqStatus.ok, some (s0 :: s1 :: rest)⟩ ext =
          ({ state := "stopped", status_string := PlayerStatus.STOPPED,
             position := 0, duration := 0,
             chapter_current := none, chapter_total := none },
           [PST_REQUEST]))) ∧
    (async_get_play_status PlayerType.UHD ⟨ReqStatus.ok, some ["0", "-2"]⟩
        ⟨ReqStatus.off, none⟩).1 =
      { state := "stopped", status_string := PlayerStatus.STOPPED,
        position := 0, duration := 0,
        chapter_current := none, chapter_total := none } := by
  refine ⟨fun ext s0 s1 rest => ⟨?_, ?_⟩, by decide⟩
  · intro a b h0 h1
    have key : async_get_play_status PlayerType.UHD
        ⟨ReqStatus.ok, some (s0 :: s1 :: rest)⟩ ext =
        (mapPstSnapshot (parsePst (s0 :: s1 :: rest)).1
          (clampPos (parsePst (s0 :: s1 :: rest)).2) {}, [PST_REQUEST]) := rfl
    rw [key, parsePst_eq_of_parse s0 s1 rest a b h0 h1, mapPstSnapshot_eq]
    rfl
  · intro h
    have key : async_get_play_status PlayerType.UHD
        ⟨ReqStatus.ok, some (s0 :: s1 :: rest)⟩ ext =
        (mapPstSnapshot (parsePst (s0 :: s1 :: rest)).1
          (clampPos (parsePst (s0 :: s1 :: rest)).2) {}, [PST_REQUEST]) := rfl
    rw [key, parsePst_default_of_fail s0 s1 rest h]
    rfl

/-- Witness for C3 at the spec's inputs. -/
theorem C3_witness :
    async_get_play_status PlayerType.UHD ⟨ReqStatus.ok, some ["0", "-2"]⟩
        ⟨ReqStatus.off, none⟩ =
      ({ state := if (0 : Int) = 0 then "stopped" else if (0 : Int) = 1 then "playing"
                  else if (0 : Int) = 2 then "paused" else "unknown",
         status_string := if (0 : Int) = 0 then PlayerStatus.STOPPED
                  else if (0 : Int) = 1 then PlayerStatus.PLAYBACK
                  else if (0 : Int) = 2 then PlayerStatus.PAUSE_PLAYBACK
                  else PlayerStatus.UNKNOWN,
         position := if (-2 : Int) < 0 then 0 else (-2 : Int), duration := 0,
         chapter_current := none, chapter_total := none },
       [PST_REQUEST]) ∧
    async_get_play_status PlayerType.UHD ⟨ReqStatus.ok, some ["zz", "1"]⟩
        ⟨ReqStatus.off, none⟩ =
      ({ state := "stopped", status_string := PlayerStatus.STOPPED,
         position := 0, duration := 0,
         chapter_current := none, chapter_total := none },
       [PST_REQUEST]) :=
  ⟨((C3_basic_state_mapping.1 ⟨ReqStatus.off, none⟩ "0" "-2" []).1 0 (-2)
      (by decide) (by decide)),
   ((C3_basic_state_mapping.1 ⟨ReqStatus.off, none⟩ "zz" "1" []).2
      (Or.inl (by decide)))⟩

/-- C1 counterexample: basic fields `["0", "0"]` and extended fields
`["0", "0", "0", "0", "0", "zz"]` satisfy the claim's hypotheses (both
probes succeed with fields, extended field 0 parses to 0, basic field 0
parses to 0), yet the fetch returns `"stopped"`, not `"standby"`: the
unparsable chapter field raises before the standby check is reached. -/
theorem C1_counterexample :
    pyInt "0" = some 0 ∧ (parsePst ["0", "0"]).1 = 0 ∧
    (async_get_play_status PlayerType.BD ⟨ReqStatus.ok, some ["0", "0"]⟩
      ⟨ReqStatus.ok, some ["0", "0", "0", "0", "0", "zz"]⟩).1.state = "stopped" := by
  refine ⟨by decide, by decide, by decide⟩

/-- C1 (amended): when the basic probe succeeds with fields, the extended
probe succeeds with fields, the whole extended parse runs to completion
with extended state 0 (so field 4 and the chapter fields, where present,
parse as integers), and the basic play-state code is 0, the fetch returns
immediately a standby snapshot with the power-off label and the parsed
position, duration and chapter values. -/
theorem C1_standby_classification (pt : PlayerType) (basic ext : RawReply)
    (d ed : List String) (L : ExtLocals)
    (hpt : pt ≠ PlayerType.UHD)
    (hb : basic.status = ReqStatus.ok) (hbd : basic.data = some d) (hd : d ≠ [])
    (he : ext.status = ReqStatus.ok) (hed : ext.data = some ed) (hede : ed ≠ [])
    (hext : extTryE ed = Except.ok (0, L))
    (hpst : (parsePst d).1 = 0) :
    async_get_play_status pt basic ext =
      ({ state := "standby", status_string := PlayerStatus.POWER_OFF,
         position := clampPos (parsePst d).2, duration := L.duration,
         chapter_current := L.chapter_current, chapter_total := L.chapter_total },
       [PST_REQUEST, GET_STATUS_REQUEST]) := by
  rcases basic with ⟨bs, bd⟩
  rcases ext with ⟨es, edt⟩
  obtain rfl : bs = ReqStatus.ok := hb
  obtain rfl : bd = some d := hbd
  obtain rfl : es = ReqStatus.ok := he
  obtain rfl : edt = some ed := hed
  rcases d with _ | ⟨d0, dtl⟩
  · exact absurd rfl hd
  rcases ed with _ | ⟨e0, etl⟩
  · exact absurd rfl hede
  cases pt with
  | UHD => exact absurd rfl hpt
  | AUTO => simp [async_get_play_status, pyFalsy, hext, hpst]
  | BD => simp [async_get_play_status, pyFalsy, hext, hpst]

/-- Witness for C1 at the spec's standby example. -/
theorem C1_witness :
    async_get_play_status PlayerType.BD ⟨ReqStatus.ok, some ["0", "0"]⟩
        ⟨ReqStatus.ok, some ["0", "0", "0", "0", "0", "0", "0"]⟩ =
      ({ state := "standby", status_string := PlayerStatus.POWER_OFF,
         position := clampPos (parsePst ["0", "0"]).2,
         duration := (⟨0, some 0, some 0⟩ : ExtLocals).duration,
         chapter_current := (⟨0, some 0, some 0⟩ : ExtLocals).chapter_current,
         chapter_total := (⟨0, some 0, some 0⟩ : ExtLocals).chapter_total },
       [PST_REQUEST, GET_STATUS_REQUEST]) :=
  C1_standby_classification PlayerType.BD ⟨ReqStatus.ok, some ["0", "0"]⟩
    ⟨ReqStatus.ok, some ["0", "0", "0", "0", "0", "0", "0"]⟩
    ["0", "0"] ["0", "0", "0", "0", "0", "0", "0"] ⟨0, some 0, some 0⟩
    (by decide) rfl rfl (by decide) rfl rfl (by decide) rfl rfl

/-- C6: the fetch tolerates every extended-probe outcome.  When the basic
probe succeeded with fields and the extended probe is issued, an extended
reply that failed, errored or carries no fields falls through to the basic
mapping with duration 0 and no chapters, and an extended reply whose parse
raises at any field falls through to the basic mapping with exactly the
values assigned before the exception; in both cases a snapshot is returned
rather than the fetch failing. -/
theorem C6_extended_failure_tolerated (pt : PlayerType) (basic ext : RawReply)
    (d : List String)
    (hpt : pt ≠ PlayerType.UHD)
    (hb : basic.status = ReqStatus.ok) (hbd : basic.data = some d) (hd : d ≠ []) :
    ((ext.status ≠ ReqStatus.ok ∨ pyFalsy ext.data = true) →
       async_get_play_status pt basic ext =
         (mapPstSnapshot (parsePst d).1 (clampPos (parsePst d).2) {},
          [PST_REQUEST, GET_STATUS_REQUEST])) ∧
    (∀ (ed : List String) (L : ExtLocals),
       ext.status = ReqStatus.ok → ext.data = some ed →
       extTryE ed = Except.error L →
       async_get_play_status pt basic ext =
         (mapPstSnapshot (parsePst d).1 (clampPos (parsePst d).2) L,
          [PST_REQUEST, GET_STATUS_REQUEST])) := by
  rcases basic with ⟨bs, bd⟩
  obtain rfl : bs = ReqStatus.ok := hb
  obtain rfl : bd = some d := hbd
  rcases d with _ | ⟨d0, dtl⟩
  · exact absurd rfl hd
  rcases ext with ⟨es, edt⟩
  constructor
  · intro h
    rcases h with hne | hf
    · cases es with
      | ok => exact absurd rfl hne
      | off =>
          cases pt with
          | UHD => exact absurd rfl hpt
          | AUTO => simp [async_get_play_status, pyFalsy]
          | BD => simp [async_get_play_status, pyFalsy]
      | error =>
          cases pt with
          | UHD => exact absurd rfl hpt
          | AUTO => simp [async_get_play_status, pyFalsy]
          | BD => simp [async_get_play_status, pyFalsy]
    · rcases edt with _ | ed
      · cases pt with
        | UHD => exact absurd rfl hpt
        | AUTO => simp [async_get_play_status, pyFalsy]
        | BD => simp [async_get_play_status, pyFalsy]
      · rcases ed with _ | ⟨e0, etl⟩
        · cases pt with
          | UHD => exact absurd rfl hpt
          | AUTO => simp [async_get_play_status, pyFalsy]
          | BD => simp [async_get_play_status, pyFalsy]
        · simp [pyFalsy] at hf
  · intro ed L he hedt hext
    obtain rfl : es = ReqStatus.ok := he
    obtain rfl : edt = some ed := hedt
    rcases ed with _ | ⟨e0, etl⟩
    · rw [show extTryE [] = Except.ok (0, {}) from rfl] at hext
      exact absurd hext (by simp)
    · cases pt with
      | UHD => exact absurd rfl hpt
      | AUTO => simp [async_get_play_status, pyFalsy, hext]
      | BD => simp [async_get_play_status, pyFalsy, hext]

/-- Witness for C6: an extended error reply, and an extended reply whose
field 4 is an embedded empty string, both fall through gracefully. -/
theorem C6_witness :
    async_get_play_status PlayerType.BD ⟨ReqStatus.ok, some ["1", "120"]⟩
        ⟨ReqStatus.error, none⟩ =
      (mapPstSnapshot (parsePst ["1", "120"]).1 (clampPos (parsePst ["1", "120"]).2) {},
       [PST_REQUEST, GET_STATUS_REQUEST]) ∧
    async_get_play_status PlayerType.BD ⟨ReqStatus.ok, some ["1", "120"]⟩
        ⟨ReqStatus.ok, some ["1", "0", "0", "0", ""]⟩ =
      (mapPstSnapshot (parsePst ["1", "120"]).1 (clampPos (parsePst ["1", "120"]).2)
        ⟨0, none, none⟩,
       [PST_REQUEST, GET_STATUS_REQUEST]) :=
  ⟨(C6_extended_failure_tolerated PlayerType.BD ⟨ReqStatus.ok, some ["1", "120"]⟩
      ⟨ReqStatus.error, none⟩ ["1", "120"] (by decide) rfl rfl (by decide)).1
      (Or.inl (by decide)),
   (C6_extended_failure_tolerated PlayerType.BD ⟨ReqStatus.ok, some ["1", "120"]⟩
      ⟨ReqStatus.ok, some ["1", "0", "0", "0", ""]⟩ ["1", "120"] (by decide) rfl rfl
      (by decide)).2 ["1", "0", "0", "0", ""] ⟨0, none, none⟩ rfl rfl rfl⟩

/-- C8: the request layer raises the connectivity fault exactly for HTTP
responses whose status is not 200; transport errors and timeouts are
normalised to the off tag, a gzip-decompression failure to the error tag,
a 200 response's body is decoded and parsed, and UTF-8 decode failure
falls back to Latin-1 instead of raising. -/
theorem C8_request_faults :
    (∀ o : HttpOutcome, (∃ msg, sendRequestModel o = Except.error msg) ↔
       ∃ s b, o = HttpOutcome.resp s b ∧ s ≠ 200) ∧
    sendRequestModel HttpOutcome.clientError = Except.ok (ReqStatus.off, none) ∧
    sendRequestModel HttpOutcome.timeoutErr = Except.ok (ReqStatus.off, none) ∧
    sendRequestModel (HttpOutcome.resp 200 RespBody.gzipCorrupt) =
      Except.ok (ReqStatus.error, none) ∧
    (∀ bs, sendRequestModel (HttpOutcome.resp 200 (RespBody.plain bs)) =
       Except.ok (parseResponseText (decodeText bs))) ∧
    (∀ bs, utf8Decode bs = none → decodeText bs = latin1Decode bs) := by
  refine ⟨?_, rfl, rfl, rfl, fun bs => rfl, fun bs h => ?_⟩
  · intro o
    constructor
    · rintro ⟨msg, hm⟩
      cases o with
      | clientError => exact absurd hm (by simp [sendRequestModel])
      | timeoutErr => exact absurd hm (by simp [sendRequestModel])
      | resp s b =>
          refine ⟨s, b, rfl, ?_⟩
          intro h200
          subst h200
          cases b with
          | gzipCorrupt => exact absurd hm (by simp [sendRequestModel])
          | plain bs => exact absurd hm (by simp [sendRequestModel])
    · rintro ⟨s, b, rfl, hs⟩
      by_cases h4 : s = 404
      · subst h4
        exact ⟨_, rfl⟩
      · refine ⟨"Unexpected status code", ?_⟩
        simp [sendRequestModel, h4, hs]
  · simp [decodeText, h]

/-- Witness for C8: a 404 response raises, and an invalid UTF-8 byte falls
back to Latin-1. -/
theorem C8_witness :
    (∃ msg, sendRequestModel (HttpOutcome.resp 404 RespBody.gzipCorrupt) =
       Except.error msg) ∧
    decodeText [255] = latin1Decode [255] :=
  ⟨(C8_request_faults.1 (HttpOutcome.resp 404 RespBody.gzipCorrupt)).mpr
     ⟨404, RespBody.gzipCorrupt, rfl, by decide⟩,
   C8_request_faults.2.2.2.2.2 [255] (by decide)⟩

/-- C10: every snapshot produced by the fetch has a nonnegative position,
on every return path; no analogous clamp exists for the duration, which a
negative extended field 4 carries through verbatim. -/
theorem C10_position_nonneg :
    (∀ (pt : PlayerType) (basic ext : RawReply),
       0 ≤ (async_get_play_status pt basic ext).1.position) ∧
    (async_get_play_status PlayerType.BD ⟨ReqStatus.ok, some ["1", "10"]⟩
       ⟨ReqStatus.ok, some ["1", "0", "0", "0", "-5"]⟩).1.duration = -5 := by
  constructor
  · intro pt basic ext
    rcases basic with ⟨bs, bd⟩
    cases bs with
    | off => simp [async_get_play_status]
    | error => simp [async_get_play_status]
    | ok =>
        rcases bd with _ | d
        · simp [async_get_play_status, pyFalsy]
        rcases d with _ | ⟨d0, dtl⟩
        · simp [async_get_play_status, pyFalsy]
        rcases ext with ⟨es, edt⟩
        cases pt with
        | UHD =>
            simp [async_get_play_status, pyFalsy, mapPstSnapshot_position,
              clampPos_nonneg]
        | AUTO =>
            cases es with
            | off =>
                simp [async_get_play_status, pyFalsy, mapPstSnapshot_position,
                  clampPos_nonneg]
            | error =>
                simp [async_get_play_status, pyFalsy, mapPstSnapshot_position,
                  clampPos_nonneg]
            | ok =>
                rcases edt with _ | ed
                · simp [async_get_play_status, pyFalsy, mapPstSnapshot_position,
                    clampPos_nonneg]
                rcases ed with _ | ⟨e0, etl⟩
                · simp [async_get_play_status, pyFalsy, mapPstSnapshot_position,
                    clampPos_nonneg]
                rcases hE : extTryE (e0 :: etl) with L | ⟨est, L⟩
                · simp [async_get_play_status, pyFalsy, hE,
                    mapPstSnapshot_position, clampPos_nonneg]
                · simp [async_get_play_status, pyFalsy, hE]
                  split
                  · simp [clampPos_nonneg]
                  · simp [mapPstSnapshot_position, clampPos_nonneg]
        | BD =>
            cases es with
            | off =>
                simp [async_get_play_status, pyFalsy, mapPstSnapshot_position,
                  clampPos_nonneg]
            | error =>
                simp [async_get_play_status, pyFalsy, mapPstSnapshot_position,
                  clampPos_nonneg]
            | ok =>
                rcases edt with _ | ed
                · simp [async_get_play_status, pyFalsy, mapPstSnapshot_position,
                    clampPos_nonneg]
                rcases ed with _ | ⟨e0, etl⟩
                · simp [async_get_play_status, pyFalsy, mapPstSnapshot_position,
                    clampPos_nonneg]
                rcases hE : extTryE (e0 :: etl) with L | ⟨est, L⟩
                · simp [async_get_play_status, pyFalsy, hE,
                    mapPstSnapshot_position, clampPos_nonneg]
                · simp [async_get_play_status, pyFalsy, hE]
                  split
                  · simp [clampPos_nonneg]
                  · simp [mapPstSnapshot_position, clampPos_nonneg]
  · decide

/-- Regression facts mirroring the repository's own unit tests
(tests/test_api.py): the playing/extended example, the no-disc example and
the basic parse-error example evaluate as the tests assert. -/
theorem embedding_matches_repo_tests :
    (async_get_play_status PlayerType.BD ⟨ReqStatus.ok, some ["1", "120"]⟩
      ⟨ReqStatus.ok, some ["1", "0", "0", "120", "7200", "3", "20"]⟩).1 =
    { state := "playing", status_string := "Playback", position := 120,
      duration := 7200, chapter_current := some 3, chapter_total := some 20 } ∧
    (async_get_play_status PlayerType.UHD ⟨ReqStatus.ok, some ["99", "0"]⟩
      ⟨ReqStatus.off, none⟩).1.state = "unknown" ∧
    (async_get_play_status PlayerType.UHD
      ⟨ReqStatus.ok, some ["not_a_number", "also_not"]⟩ ⟨ReqStatus.off, none⟩).1 =
    { state := "stopped", status_string := "Stopped", position := 0,
      duration := 0, chapter_current := none, chapter_total := none } := by
  refine ⟨by decide, by decide, by decide⟩
